import Mathlib

/-!
Verification of the dipper job-orchestration and clip-rendering subsystem.

The job registry / status reconciler / clip renderer live in the backend
server program, whose artifacts (PyInstaller spec, lifecycle documentation,
HTTP callers) are in the repository while the server module itself is not.
Those components are therefore modelled from the specification text, as
marked on each definition.  The frontend batch loader and the review-tab
clip mapping are embedded directly from the JavaScript sources
(frontend/src/components/PerformanceProfiler.js and ReviewTab.js).
-/

namespace Dipper

/- ## Job status model (spec sections 3, 4.1, 4.3) -/

/-- Modelled from the spec: the JobStatus status enum
pending / running / completed / failed / cancelled, plus the distinct
orphan / unknown status the reconciler produces after a restart. -/
inductive JStatus where
  | pending
  | running
  | completed
  | failed
  | cancelled
  | unknownOrphaned
deriving DecidableEq, Repr

/-- The terminal statuses: completed, failed, cancelled. -/
def JStatus.isTerminal : JStatus → Bool
  | .completed => true
  | .failed => true
  | .cancelled => true
  | _ => false

/-- Modelled from the spec: the on-disk status artifact the worker
subprocess overwrites (status enum, stage label, progress, message). -/
structure StatusArtifact where
  status : JStatus
  stage : String
  progress : Nat
  message : String
deriving DecidableEq, Repr

/-- Modelled from the spec: the process-table entry the Job Runner keeps
for a tracked subprocess: OS-level liveness plus exit code once known. -/
structure ProcEntry where
  alive : Bool
  exitCode : Option Int
deriving DecidableEq, Repr

/-- Modelled from the spec: the per-job state the Job Registry holds —
the parsed status artifact (absent if never written), the process-table
entry (absent if the subprocess was never tracked, e.g. after an
orchestrator restart), the cached terminal status once resolved, the log
tail used for failure messages, and whether a termination signal was sent. -/
structure JobState where
  artifact : Option StatusArtifact
  proc : Option ProcEntry
  cachedTerminal : Option JStatus
  logTail : String
  signalSent : Bool
deriving DecidableEq, Repr

/-- Modelled from the spec: section 4.3 Status Reconciler, steps 1–3.
Merges the self-reported artifact with process liveness and exit code:
a live process trusts a pending/running artifact and overrides a terminal
artifact to running; a dead process with exit code 0 and a missing or
still-running artifact resolves to completed, a non-zero exit resolves to
failed; no process record at all with an artifact claiming running
resolves to the distinct unknown/orphaned status. -/
def reconcileRaw (st : JobState) : JStatus :=
  match st.proc with
  | some p =>
    if p.alive then
      match st.artifact with
      | some a =>
        if a.status = JStatus.pending ∨ a.status = JStatus.running then a.status
        else JStatus.running
      | none => JStatus.running
    else
      match p.exitCode with
      | some c =>
        if c = 0 then
          match st.artifact with
          | none => JStatus.completed
          | some a =>
            if a.status = JStatus.running ∨ a.status = JStatus.pending then
              JStatus.completed
            else a.status
        else JStatus.failed
      | none =>
        match st.artifact with
        | some a => if a.status.isTerminal then a.status else JStatus.unknownOrphaned
        | none => JStatus.unknownOrphaned
  | none =>
    match st.artifact with
    | some a =>
      if a.status = JStatus.running then JStatus.unknownOrphaned else a.status
    | none => JStatus.unknownOrphaned

/-- Modelled from the spec: section 4.3 step 4 — `get_status` consults the
cached terminal status first (so terminal polls are O(1) and do not re-read
the process table); otherwise it runs the reconciler and caches the result
when it is terminal. -/
def get_status (st : JobState) : JStatus × JobState :=
  match st.cachedTerminal with
  | some t => (t, st)
  | none =>
    let s := reconcileRaw st
    if s.isTerminal then (s, { st with cachedTerminal := some s }) else (s, st)

/-- Modelled from the spec: section 4.1 `cancel` — a no-op on a job already
resolved terminal; sends a termination signal to the live subprocess if one
is tracked; if no live subprocess is tracked but the artifact shows running,
marks the status cancelled without a process to signal. -/
def cancelJob (st : JobState) : JobState :=
  if st.cachedTerminal.isSome then st
  else
    match st.proc with
    | some p => if p.alive then { st with signalSent := true } else st
    | none =>
      match st.artifact with
      | some a =>
        if a.status = JStatus.running then
          { st with cachedTerminal := some JStatus.cancelled }
        else st
      | none => st

/-- The Job Registry map from job id to job state. -/
def Registry : Type := Nat → Option JobState

/-- Modelled from the spec: registry-level cancel — fails with
UnknownJobError for an unregistered id, otherwise applies `cancelJob`
to the registered job state. -/
def registryCancel (r : Registry) (id : Nat) : Except String Registry :=
  match r id with
  | none => Except.error "UnknownJobError"
  | some st => Except.ok (fun j => if j = id then some (cancelJob st) else r j)

/- ## Clip rendering model (spec sections 3, 4.4, 6) -/

/-- Modelled from the spec: the closed set of rendering settings named in
the ClipRequest data model — sample rate, spectrogram window size,
colormap, dB range, bandpass on/off plus range, resize target, and the
reference-frequency overlay on/off plus value. -/
structure RenderSettings where
  sample_rate : Option Nat
  spec_window_size : Nat
  spectrogram_colormap : String
  dB_min : Int
  dB_max : Int
  use_bandpass : Bool
  bandpass_low : Nat
  bandpass_high : Nat
  resize_images : Bool
  image_width : Nat
  image_height : Nat
  show_reference_frequency : Bool
  reference_frequency : Nat
deriving DecidableEq, Repr

/-- Modelled from the spec: a ClipRequest — source file path, start and end
times in seconds, the caller-supplied clip identifier used to restore
result ordering, and the rendering settings. -/
structure ClipRequest where
  file_path : String
  start_time : ℚ
  end_time : ℚ
  clip_id : String
  settings : RenderSettings
deriving DecidableEq, Repr

/-- Modelled from the spec: the successful render payload — base64 audio,
base64 spectrogram image, sample rate and duration. -/
structure ClipPayload where
  audio_base64 : String
  spectrogram_base64 : String
  sample_rate : Nat
  duration : ℚ
deriving DecidableEq, Repr

/-- Modelled from the spec: a ClipResult — one per request, echoing the
request's clip identifier, either a success payload or an error message. -/
inductive ClipResult where
  | ok (clip_id : String) (payload : ClipPayload)
  | err (clip_id : String) (message : String)
deriving DecidableEq, Repr

/-- The clip identifier carried by a result. -/
def ClipResult.clip_identifier : ClipResult → String
  | .ok i _ => i
  | .err i _ => i

/-- Whether a result is a success. -/
def ClipResult.isSuccess : ClipResult → Bool
  | .ok _ _ => true
  | .err _ _ => false

/-- Modelled from the spec: section 6 — the audio
decoding/filtering/rendering library the Clip Renderer calls as black
boxes (file existence, native sample rate, load-window-of-audio which may
fail, bandpass-filter, time-frequency transform, colormap-apply,
image-resize, reference-line overlay, image and audio encoders). -/
structure RenderEnv where
  fileExists : String → Bool
  nativeRate : String → Nat
  decode : String → ℚ → ℚ → Nat → Option (List Int)
  bandpass : Nat → Nat → List Int → List Int
  spectro : Nat → List Int → List Int
  colormapImage : String → List Int → String
  resizeImage : Nat → Nat → String → String
  overlayRefLine : Nat → String → String
  encodePng : String → String
  encodeWav : List Int → String

/-- The documented default dB range lower bound. -/
def defaultDBMin : Int := -80

/-- The documented default dB range upper bound. -/
def defaultDBMax : Int := -20

/-- Modelled from the spec: section 4.4 numeric semantics — an invalid dB
range (min ≥ max) is corrected to the documented default range at the
renderer boundary rather than propagated as an error. -/
def correctSettings (s : RenderSettings) : RenderSettings :=
  if s.dB_min ≥ s.dB_max then
    { s with dB_min := defaultDBMin, dB_max := defaultDBMax }
  else s

/-- Magnitudes outside the dB range are clipped to it, not wrapped. -/
def clampDB (lo hi v : Int) : Int := max lo (min hi v)

/-- Modelled from the spec: section 4.4 `render` — resolve the file (error
if missing), decode the requested window (error on decode failure),
optionally bandpass-filter, compute the time-frequency representation at
the requested window size, clamp magnitudes to the (corrected) dB range,
apply the colormap, optionally resize to the fixed target, optionally
overlay the reference-frequency line, and encode both payloads.  Every
failure yields an error result carrying the request's clip identifier. -/
def render (env : RenderEnv) (r : ClipRequest) : ClipResult :=
  if env.fileExists r.file_path then
    let s := correctSettings r.settings
    let sr := s.sample_rate.getD (env.nativeRate r.file_path)
    match env.decode r.file_path r.start_time r.end_time sr with
    | some samples =>
      let filtered :=
        if s.use_bandpass then env.bandpass s.bandpass_low s.bandpass_high samples
        else samples
      let mags := env.spectro s.spec_window_size filtered
      let clamped := mags.map (clampDB s.dB_min s.dB_max)
      let img0 := env.colormapImage s.spectrogram_colormap clamped
      let img1 :=
        if s.resize_images then env.resizeImage s.image_width s.image_height img0
        else img0
      let img2 :=
        if s.show_reference_frequency then env.overlayRefLine s.reference_frequency img1
        else img1
      ClipResult.ok r.clip_id
        { audio_base64 := env.encodeWav filtered
          spectrogram_base64 := env.encodePng img2
          sample_rate := sr
          duration := r.end_time - r.start_time }
    | none =>
      ClipResult.err r.clip_id ("DecodeError: could not read audio window from " ++ r.file_path)
  else
    ClipResult.err r.clip_id ("FileNotFoundError: " ++ r.file_path)

/- ## Clip cache and batch service (spec sections 3, 4.5) -/

/-- Modelled from the spec: the cache key — the deterministic tuple of
(file path, start, end, full rendering-settings tuple). -/
abbrev CacheKey : Type := String × ℚ × ℚ × RenderSettings

/-- The cache key of a request. -/
def cacheKey (r : ClipRequest) : CacheKey :=
  (r.file_path, r.start_time, r.end_time, r.settings)

/-- Modelled from the spec: the in-memory Clip Cache, a key-addressed
store of previously rendered clip payloads. -/
abbrev ClipCache : Type := List (CacheKey × ClipPayload)

/-- Cache lookup by key. -/
def cacheLookup : ClipCache → CacheKey → Option ClipPayload
  | [], _ => none
  | (k, v) :: rest, q => if k = q then some v else cacheLookup rest q

/-- Cache insertion (newest entry first). -/
def cacheInsert (c : ClipCache) (k : CacheKey) (v : ClipPayload) : ClipCache :=
  (k, v) :: c

/-- The result one request receives: a cache hit re-stamped with the
request's own clip identifier, or a fresh render on a miss. -/
def renderOne (env : RenderEnv) (cache : ClipCache) (r : ClipRequest) : ClipResult :=
  match cacheLookup cache (cacheKey r) with
  | some p => ClipResult.ok r.clip_id p
  | none => render env r

/-- First-match lookup in an index-keyed association list. -/
def lookupNat {α : Type} : List (Nat × α) → Nat → Option α
  | [], _ => none
  | (k, v) :: rest, i => if k = i then some v else lookupNat rest i

/-- Modelled from the spec: section 4.5 step 1 — the cache hits of a batch,
paired with their original indices and re-stamped with each request's
clip identifier. -/
def batchHits (cache : ClipCache) (requests : List ClipRequest) : List (Nat × ClipResult) :=
  requests.enum.filterMap (fun p =>
    (cacheLookup cache (cacheKey p.2)).map (fun v => (p.1, ClipResult.ok p.2.clip_id v)))

/-- Modelled from the spec: section 4.5 step 1 — the cache misses of a
batch, paired with their original indices. -/
def batchMisses (cache : ClipCache) (requests : List ClipRequest) : List (Nat × ClipRequest) :=
  requests.enum.filter (fun p => (cacheLookup cache (cacheKey p.2)).isNone)

/-- Modelled from the spec: section 4.5 step 2 — the worker pool renders
every miss; each result is recorded at its original index. -/
def missResults (env : RenderEnv) (cache : ClipCache) (requests : List ClipRequest) :
    List (Nat × ClipResult) :=
  (batchMisses cache requests).map (fun p => (p.1, render env p.2))

/-- Modelled from the spec: section 4.5 step 3 — workers complete in an
arbitrary order; `order` lists the positions of `missResults` in the
order the pool completes them. -/
def completedInOrder (env : RenderEnv) (cache : ClipCache) (order : List Nat)
    (requests : List ClipRequest) : List (Nat × ClipResult) :=
  order.filterMap (fun k => (missResults env cache requests)[k]?)

/-- Modelled from the spec: section 4.5 step 3 — successful miss renders
are inserted into the cache under their keys. -/
def cacheAfterBatch (env : RenderEnv) (cache : ClipCache) (requests : List ClipRequest) :
    ClipCache :=
  (batchMisses cache requests).foldl (fun c p =>
    match render env p.2 with
    | ClipResult.ok _ payload => cacheInsert c (cacheKey p.2) payload
    | ClipResult.err _ _ => c) cache

/-- Modelled from the spec: section 4.5 `render_batch` — partition into
hits and misses preserving original index, dispatch misses to the pool
(completion order `order`), and reassemble the full ordered result list
only after all misses complete, by original index. -/
def render_batch (env : RenderEnv) (cache : ClipCache) (order : List Nat)
    (requests : List ClipRequest) : List ClipResult :=
  (List.range requests.length).map (fun i =>
    (lookupNat (batchHits cache requests ++ completedInOrder env cache order requests)
      i).getD (ClipResult.err "" "missing result"))

/- ## Frontend embedding: ReviewTab.js clip mapping -/

/-- An annotation row as the review page holds it: file, start time, an
optional end time (absent when the row had none), and the row id used as
the clip identifier (frontend/src/components/ReviewTab.js). -/
structure AnnotationRow where
  file : String
  start_time : ℚ
  end_time : Option ℚ
  id : Nat
deriving DecidableEq, Repr

/-- JavaScript truthiness of an optional numeric field: absent (undefined)
and zero are falsy. -/
def jsNumFalsy : Option ℚ → Bool
  | none => true
  | some x => decide (x = 0)

/-- The Windows-absolute-path test from ReviewTab.js line 73: the regex
matching a letter, a colon and two backslash characters. -/
def windowsAbsPath (s : String) : Bool :=
  match s.data with
  | c1 :: c2 :: c3 :: c4 :: _ => c1.isAlpha && c2 = ':' && c3 = '\\' && c4 = '\\'
  | _ => false

/-- ReviewTab.js lines 72–77: prepend the root audio path to a relative
file, leave absolute paths alone. -/
def fullFilePath (rootAudioPath : String) (file : String) : String :=
  if rootAudioPath ≠ "" ∧ ¬ file.startsWith "/" ∧ windowsAbsPath file = false then
    rootAudioPath ++ "/" ++ file
  else file

/-- The clip request shape ReviewTab.js builds for the batch loader. -/
structure ClipToLoad where
  file_path : String
  start_time : ℚ
  end_time : ℚ
  clip_id : Nat
deriving DecidableEq, Repr

/-- ReviewTab.js lines 70–84 — one entry of the clipsToLoad mapping:
the end time falls back to start_time + 3 when the row's end_time is
absent or falsy, and the row id becomes the clip identifier. -/
def clipsToLoadEntry (rootAudioPath : String) (clip : AnnotationRow) : ClipToLoad :=
  { file_path := fullFilePath rootAudioPath clip.file
    start_time := clip.start_time
    end_time :=
      if jsNumFalsy clip.end_time then clip.start_time + 3 else clip.end_time.getD 0
    clip_id := clip.id }

/-- ReviewTab.js lines 70–84 — the clipsToLoad mapping over a page. -/
def clipsToLoad (rootAudioPath : String) (currentData : List AnnotationRow) :
    List ClipToLoad :=
  currentData.map (clipsToLoadEntry rootAudioPath)

/- ## Frontend embedding: PerformanceProfiler.js loadClipsBatch -/

/-- An input item of loadClipsBatch (clipDataArray element). -/
structure ClipData where
  clip_id : Option String
  file_path : String
  start_time : ℚ
  end_time : ℚ
deriving DecidableEq, Repr

/-- A prepared clip (PerformanceProfiler.js lines 175–181): the clip id
defaults to a positional name only when the input had none. -/
structure PreparedClip where
  clip_id : String
  file_path : String
  start_time : ℚ
  end_time : ℚ
deriving DecidableEq, Repr

/-- PerformanceProfiler.js lines 175–181 — clipsForBatch preparation. -/
def prepareClips (arr : List ClipData) : List PreparedClip :=
  arr.enum.map (fun p =>
    { clip_id := p.2.clip_id.getD ("clip_" ++ toString p.1)
      file_path := p.2.file_path
      start_time := p.2.start_time
      end_time := p.2.end_time })

/-- The result-object shape the loader reads from backend responses. -/
structure ClipResultJS where
  status : String
  error : Option String
  clip_id : Option String
  audio_base64 : Option String
  spectrogram_base64 : Option String
deriving DecidableEq, Repr

/-- Outcome of one `createAudioClips` IPC call: a thrown error or a
returned result object. -/
inductive IndCallOutcome where
  | throwsErr (message : String)
  | returns (res : ClipResultJS)
deriving DecidableEq, Repr

/-- Outcome of the `createAudioClipsBatch` IPC call: a thrown error or a
returned envelope with status, results and optional error. -/
inductive BatchCallOutcome where
  | throwsErr (message : String)
  | returns (status : String) (results : List ClipResultJS) (error : Option String)
deriving DecidableEq, Repr

/-- The environment loadClipsBatch runs in: the Electron API presence
guard and the behaviour of the two IPC entry points. -/
structure LoaderEnv where
  electronAPIAvailable : Bool
  batchCall : BatchCallOutcome
  individualCall : String → ℚ → ℚ → IndCallOutcome

/-- JavaScript string-or-default: `v || d` returns d when v is absent or
the empty string. -/
def jsOrStr : Option String → String → String
  | none, d => d
  | some s, d => if s = "" then d else s

/-- PerformanceProfiler.js lines 205–243 — one iteration of the per-clip
fallback loop: a success result is re-stamped with the prepared clip id; a
non-success result or a thrown error becomes an error entry with a
message, at this clip's position. -/
def individualEntry (env : LoaderEnv) (clip : PreparedClip) : ClipResultJS :=
  match env.individualCall clip.file_path clip.start_time clip.end_time with
  | IndCallOutcome.returns r =>
    if r.status = "success" then { r with clip_id := some clip.clip_id }
    else
      { status := "error"
        error := some (jsOrStr r.error "Individual clip processing failed")
        clip_id := some clip.clip_id
        audio_base64 := none
        spectrogram_base64 := none }
  | IndCallOutcome.throwsErr m =>
    { status := "error"
      error := some m
      clip_id := some clip.clip_id
      audio_base64 := none
      spectrogram_base64 := none }

/-- PerformanceProfiler.js lines 199–250 — the per-clip fallback loop. -/
def fallbackResults (env : LoaderEnv) (clips : List PreparedClip) : List ClipResultJS :=
  clips.map (individualEntry env)

/-- A processed clip as returned to the UI (PerformanceProfiler.js lines
257–261): the merged object keeps the original input item (absent when the
backend returned more results than inputs) and the backend result. -/
structure ProcessedClip where
  originalData : Option ClipData
  res : ClipResultJS
deriving DecidableEq, Repr

/-- PerformanceProfiler.js lines 116–301 — loadClipsBatch: return an empty
array without the Electron API; call the batch IPC, falling back to the
per-clip loop if it throws (the loop itself always yields a success
envelope); on a success envelope map the results, indexing the original
array in result order; a non-success envelope reaches the top-level catch,
which returns an empty array. -/
def loadClipsBatch (env : LoaderEnv) (clipDataArray : List ClipData) :
    List ProcessedClip :=
  if env.electronAPIAvailable = false then []
  else
    let clipsForBatch := prepareClips clipDataArray
    let statusResults : String × List ClipResultJS :=
      match env.batchCall with
      | BatchCallOutcome.returns s rs _ => (s, rs)
      | BatchCallOutcome.throwsErr _ => ("success", fallbackResults env clipsForBatch)
    if statusResults.1 = "success" then
      statusResults.2.enum.map (fun p =>
        { originalData := clipDataArray.get? p.1, res := p.2 })
    else []

/- ## Concrete instances used by the witnesses -/

/-- A status artifact claiming `running`. -/
def artRunning : StatusArtifact :=
  { status := JStatus.running, stage := "processing_files", progress := 45
    message := "Processing" }

/-- An orphaned job: artifact says running, no process record, no cache. -/
def stOrphan : JobState :=
  { artifact := some artRunning, proc := none, cachedTerminal := none
    logTail := "", signalSent := false }

/-- A job whose subprocess exited with code 0 while the artifact still
says running. -/
def stExitZero : JobState :=
  { artifact := some artRunning, proc := some { alive := false, exitCode := some 0 }
    cachedTerminal := none, logTail := "", signalSent := false }

/-- A job whose subprocess is alive. -/
def stLive : JobState :=
  { artifact := some artRunning, proc := some { alive := true, exitCode := none }
    cachedTerminal := none, logTail := "", signalSent := false }

/-- A registry holding one live job under id 0. -/
def regLive : Registry := fun j => if j = 0 then some stLive else none

/-- Default rendering settings (the documented defaults). -/
def settingsW : RenderSettings :=
  { sample_rate := none, spec_window_size := 512, spectrogram_colormap := "greys_r"
    dB_min := -80, dB_max := -20, use_bandpass := false, bandpass_low := 500
    bandpass_high := 8000, resize_images := true, image_width := 224
    image_height := 224, show_reference_frequency := false
    reference_frequency := 1000 }

/-- Settings with an inverted (invalid) dB range. -/
def settingsBadDB : RenderSettings :=
  { settingsW with dB_min := -10, dB_max := -20 }

/-- A concrete rendering library in which only good.wav exists and every
decode succeeds. -/
def envW : RenderEnv :=
  { fileExists := fun f => f == "good.wav"
    nativeRate := fun _ => 22050
    decode := fun _ _ _ _ => some [1, 2, 3]
    bandpass := fun _ _ s => s
    spectro := fun _ s => s
    colormapImage := fun cm l => cm ++ toString l
    resizeImage := fun _ _ s => s
    overlayRefLine := fun _ s => s
    encodePng := fun s => "png:" ++ s
    encodeWav := fun l => "wav:" ++ toString l }

/-- A request for the existing file. -/
def reqGood : ClipRequest :=
  { file_path := "good.wav", start_time := 0, end_time := 3, clip_id := "a"
    settings := settingsW }

/-- The same clip with only the colormap changed. -/
def reqGood2 : ClipRequest :=
  { reqGood with
    clip_id := "a2"
    settings := { settingsW with spectrogram_colormap := "viridis" } }

/-- A request for a nonexistent file. -/
def reqMissing : ClipRequest :=
  { file_path := "missing.wav", start_time := 1, end_time := 4, clip_id := "b"
    settings := settingsW }

/-- A request with an invalid dB range on an existing file. -/
def reqBadDB : ClipRequest :=
  { file_path := "good.wav", start_time := 0, end_time := 3, clip_id := "c"
    settings := settingsBadDB }

/-- An annotation row with no end time. -/
def rowNoEnd : AnnotationRow :=
  { file := "x.wav", start_time := 2, end_time := none, id := 0 }

/-- An annotation row with an explicit end time. -/
def rowWithEnd : AnnotationRow :=
  { file := "x.wav", start_time := 2, end_time := some 5, id := 1 }

/-- A loader environment whose batch call returns a non-success envelope. -/
def envLoaderFail : LoaderEnv :=
  { electronAPIAvailable := true
    batchCall := BatchCallOutcome.returns "error" [] (some "Batch processing failed")
    individualCall := fun _ _ _ => IndCallOutcome.throwsErr "unreachable" }

/-- A one-element input array for the loader. -/
def arrW : List ClipData :=
  [{ clip_id := some "c1", file_path := "a.wav", start_time := 0, end_time := 3 }]

/- ## Helper lemmas -/

theorem cancelJob_idem (st : JobState) : cancelJob (cancelJob st) = cancelJob st := by
  unfold cancelJob
  by_cases hc : st.cachedTerminal.isSome
  · simp [hc]
  · simp only [hc, if_false]
    cases hp : st.proc with
    | some p =>
      by_cases ha : p.alive
      · simp [hp, ha, hc]
      · simp [hp, ha, hc]
    | none =>
      cases har : st.artifact with
      | some a =>
        by_cases hr : a.status = JStatus.running
        · simp [hp, har, hr, hc]
        · simp [hp, har, hr, hc]
      | none => simp [hp, har, hc]

theorem clip_identifier_render (env : RenderEnv) (r : ClipRequest) :
    (render env r).clip_identifier = r.clip_id := by
  unfold render
  by_cases hf : env.fileExists r.file_path
  · simp only [hf, if_true]
    cases env.decode r.file_path r.start_time r.end_time
        ((correctSettings r.settings).sample_rate.getD (env.nativeRate r.file_path)) with
    | some samples => rfl
    | none => rfl
  · simp [hf, ClipResult.clip_identifier]

theorem clip_identifier_renderOne (env : RenderEnv) (cache : ClipCache) (r : ClipRequest) :
    (renderOne env cache r).clip_identifier = r.clip_id := by
  unfold renderOne
  cases cacheLookup cache (cacheKey r) with
  | some p => rfl
  | none => exact clip_identifier_render env r

theorem lookupNat_eq_of_fn {α : Type} (l : List (Nat × α)) (f : Nat → α) (i : Nat)
    (hv : ∀ p ∈ l, p.2 = f p.1) (hk : ∃ p ∈ l, p.1 = i) :
    lookupNat l i = some (f i) := by
  induction l with
  | nil =>
    obtain ⟨p, hp, _⟩ := hk
    cases hp
  | cons hd tl ih =>
    obtain ⟨k, v⟩ := hd
    by_cases hki : k = i
    · subst hki
      have hval : v = f k := hv (k, v) (List.mem_cons_self _ _)
      simp [lookupNat, hval]
    · simp only [lookupNat, hki, if_false]
      apply ih
      · intro p hp
        exact hv p (List.mem_cons_of_mem _ hp)
      · obtain ⟨p, hp, hpi⟩ := hk
        rcases List.mem_cons.mp hp with h | h
        · rw [h] at hpi
          exact absurd hpi hki
        · exact ⟨p, h, hpi⟩

/- ## Claim theorems -/

/-- Claim C2: for a job whose status artifact claims running but that has
no process-table entry at all (orchestrator restarted, subprocess never
tracked), get_status returns the distinct orphan/unknown status, and in
particular neither completed nor failed. -/
theorem getStatus_orphan_unknown (st : JobState) (a : StatusArtifact)
    (hart : st.artifact = some a) (hrun : a.status = JStatus.running)
    (hproc : st.proc = none) (hcache : st.cachedTerminal = none) :
    (get_status st).1 = JStatus.unknownOrphaned ∧
    (get_status st).1 ≠ JStatus.completed ∧ (get_status st).1 ≠ JStatus.failed := by
  have hraw : reconcileRaw st = JStatus.unknownOrphaned := by
    unfold reconcileRaw
    rw [hproc, hart]
    simp [hrun]
  have h1 : (get_status st).1 = JStatus.unknownOrphaned := by
    unfold get_status
    rw [hcache]
    simp [hraw, JStatus.isTerminal]
  refine ⟨h1, ?_, ?_⟩ <;> rw [h1] <;> decide

/-- Witness for C2 at a concrete orphaned job state. -/
theorem getStatus_orphan_unknown_witness :
    (get_status stOrphan).1 = JStatus.unknownOrphaned ∧
    (get_status stOrphan).1 ≠ JStatus.completed ∧
    (get_status stOrphan).1 ≠ JStatus.failed :=
  getStatus_orphan_unknown stOrphan artRunning rfl rfl rfl rfl

/-- Claim C3: for a job whose subprocess is not alive and whose exit code
is known to be zero, when the status artifact is missing or still claims
running, get_status resolves the status to completed, not running. -/
theorem getStatus_exit_zero_completed (st : JobState) (p : ProcEntry)
    (hproc : st.proc = some p) (halive : p.alive = false) (hexit : p.exitCode = some 0)
    (hart : st.artifact = none ∨ ∃ a, st.artifact = some a ∧ a.status = JStatus.running)
    (hcache : st.cachedTerminal = none) :
    (get_status st).1 = JStatus.completed ∧ (get_status st).1 ≠ JStatus.running := by
  have hraw : reconcileRaw st = JStatus.completed := by
    unfold reconcileRaw
    rw [hproc]
    rcases hart with h | ⟨a, ha, hrun⟩
    · rw [h]
      simp [halive, hexit]
    · rw [ha]
      simp [halive, hexit, hrun]
  have h1 : (get_status st).1 = JStatus.completed := by
    unfold get_status
    rw [hcache]
    simp [hraw, JStatus.isTerminal]
  exact ⟨h1, by rw [h1]; decide⟩

/-- Witness for C3 at a concrete exited-with-zero job state. -/
theorem getStatus_exit_zero_completed_witness :
    (get_status stExitZero).1 = JStatus.completed ∧
    (get_status stExitZero).1 ≠ JStatus.running :=
  getStatus_exit_zero_completed stExitZero
    { alive := false, exitCode := some 0 } rfl rfl rfl
    (Or.inr ⟨artRunning, rfl, rfl⟩) rfl

/-- Claim C6: once get_status has resolved a terminal status (completed,
failed, or cancelled), the status is cached in the returned job state, and
every subsequent get_status call that still sees that cache — whatever the
process table or artifact now contain — returns the same terminal status
without touching them, and in particular never returns running again. -/
theorem terminal_status_sticky (st : JobState) (s : JStatus) (st' : JobState)
    (h : get_status st = (s, st')) (hterm : s.isTerminal = true) :
    st'.cachedTerminal = some s ∧
    (∀ st2 : JobState, st2.cachedTerminal = some s →
      get_status st2 = (s, st2) ∧ (get_status st2).1 ≠ JStatus.running) := by
  have hcached : ∀ st2 : JobState, st2.cachedTerminal = some s → get_status st2 = (s, st2) := by
    intro st2 h2
    unfold get_status
    rw [h2]
  have hnotrun : s ≠ JStatus.running := by
    intro hs
    rw [hs] at hterm
    exact absurd hterm (by decide)
  constructor
  · unfold get_status at h
    cases hc : st.cachedTerminal with
    | some t =>
      rw [hc] at h
      have ht : t = s := congrArg Prod.fst h
      have hst : st' = st := (congrArg Prod.snd h).symm
      rw [hst, hc, ht]
    | none =>
      rw [hc] at h
      simp only at h
      by_cases hT : (reconcileRaw st).isTerminal
      · rw [if_pos hT] at h
        have hs : reconcileRaw st = s := congrArg Prod.fst h
        have hst : { st with cachedTerminal := some (reconcileRaw st) } = st' :=
          congrArg Prod.snd h
        rw [← hst, hs]
      · rw [if_neg hT] at h
        have hs : reconcileRaw st = s := congrArg Prod.fst h
        rw [hs] at hT
        exact absurd hterm hT
  · intro st2 h2
    refine ⟨hcached st2 h2, ?_⟩
    rw [hcached st2 h2]
    exact hnotrun

/-- Witness for C6: a job whose artifact reports completed resolves
terminal, is cached, and stays completed under a stale process entry. -/
theorem terminal_status_sticky_witness :
    ((get_status
        { artifact := some { status := JStatus.completed, stage := "done", progress := 100
                             message := "ok" }
          proc := none, cachedTerminal := none, logTail := "", signalSent := false }).2.cachedTerminal
      = some JStatus.completed) ∧
    (∀ st2 : JobState, st2.cachedTerminal = some JStatus.completed →
      get_status st2 = (JStatus.completed, st2) ∧ (get_status st2).1 ≠ JStatus.running) :=
  terminal_status_sticky
    { artifact := some { status := JStatus.completed, stage := "done", progress := 100
                         message := "ok" }
      proc := none, cachedTerminal := none, logTail := "", signalSent := false }
    JStatus.completed _ rfl rfl

/-- Claim C7: cancel is idempotent — if cancelling a job id succeeded, a
second cancel of the same id is acknowledged with the registry unchanged
(in particular on a job already in a terminal state) and never errors. -/
theorem cancel_idempotent (r : Registry) (id : Nat) (reg1 : Registry)
    (h : registryCancel r id = Except.ok reg1) :
    registryCancel reg1 id = Except.ok reg1 := by
  unfold registryCancel at h
  cases hr : r id with
  | none =>
    rw [hr] at h
    exact absurd h (by simp)
  | some st =>
    rw [hr] at h
    have hreg : reg1 = (fun j => if j = id then some (cancelJob st) else r j) :=
      (Except.ok.inj h).symm
    have hlook : reg1 id = some (cancelJob st) := by
      rw [hreg]
      simp
    unfold registryCancel
    rw [hlook]
    simp only
    refine congrArg Except.ok ?_
    funext j
    by_cases hj : j = id
    · rw [if_pos hj, hj, cancelJob_idem, hlook]
    · rw [if_neg hj]

/-- Witness for C7: cancelling job 0 in the one-job registry twice. -/
theorem cancel_idempotent_witness :
    registryCancel (fun j => if j = 0 then some (cancelJob stLive) else regLive j) 0 =
      Except.ok (fun j => if j = 0 then some (cancelJob stLive) else regLive j) :=
  cancel_idempotent regLive 0 _ rfl

theorem correctSettings_sample_rate (s : RenderSettings) :
    (correctSettings s).sample_rate = s.sample_rate := by
  unfold correctSettings
  split <;> rfl

/-- Claim C4: a render request whose settings have dB_min ≥ dB_max does not
fail because of the dB range — the invalid range is replaced by the
documented default range and, with every other input valid (existing file,
decodable window), rendering proceeds to a success result. -/
theorem render_dB_corrected_success (env : RenderEnv) (r : ClipRequest) (samples : List Int)
    (hbad : r.settings.dB_min ≥ r.settings.dB_max)
    (hfile : env.fileExists r.file_path = true)
    (hdecode : env.decode r.file_path r.start_time r.end_time
        (r.settings.sample_rate.getD (env.nativeRate r.file_path)) = some samples) :
    correctSettings r.settings =
      { r.settings with dB_min := defaultDBMin, dB_max := defaultDBMax } ∧
    (render env r).isSuccess = true := by
  have hcorr : correctSettings r.settings =
      { r.settings with dB_min := defaultDBMin, dB_max := defaultDBMax } := by
    unfold correctSettings
    rw [if_pos hbad]
  refine ⟨hcorr, ?_⟩
  have hsr : (correctSettings r.settings).sample_rate = r.settings.sample_rate :=
    correctSettings_sample_rate r.settings
  unfold render
  rw [hfile]
  simp only [if_true, hsr, hdecode, ClipResult.isSuccess]

/-- Witness for C4 at a concrete request with an inverted dB range. -/
theorem render_dB_corrected_success_witness :
    correctSettings reqBadDB.settings =
      { reqBadDB.settings with dB_min := defaultDBMin, dB_max := defaultDBMax } ∧
    (render envW reqBadDB).isSuccess = true :=
  render_dB_corrected_success envW reqBadDB [1, 2, 3] (by decide) rfl rfl

/-- Claim C8: the cache key is injective in the rendering settings — two
requests for the same file and time range that differ in any rendering
setting have different cache keys, so the second request misses a cache
holding only the first and is rendered afresh. -/
theorem cacheKey_settings_sensitive (r1 r2 : ClipRequest)
    (hf : r1.file_path = r2.file_path) (hs : r1.start_time = r2.start_time)
    (he : r1.end_time = r2.end_time) (hset : r1.settings ≠ r2.settings) :
    cacheKey r1 ≠ cacheKey r2 ∧
    (∀ v : ClipPayload,
      cacheLookup (cacheInsert [] (cacheKey r1) v) (cacheKey r2) = none) ∧
    (∀ (env : RenderEnv) (v : ClipPayload),
      renderOne env (cacheInsert [] (cacheKey r1) v) r2 = render env r2) := by
  have hne : cacheKey r1 ≠ cacheKey r2 := by
    intro h
    apply hset
    exact congrArg (fun q : CacheKey => q.2.2.2) h
  have hlook : ∀ v : ClipPayload,
      cacheLookup (cacheInsert [] (cacheKey r1) v) (cacheKey r2) = none := by
    intro v
    simp [cacheInsert, cacheLookup, hne]
  refine ⟨hne, hlook, ?_⟩
  intro env v
  unfold renderOne
  rw [hlook v]

/-- Witness for C8: the same clip with only the colormap changed misses
the cache and is re-rendered. -/
theorem cacheKey_settings_sensitive_witness :
    cacheKey reqGood ≠ cacheKey reqGood2 ∧
    (∀ v : ClipPayload,
      cacheLookup (cacheInsert [] (cacheKey reqGood) v) (cacheKey reqGood2) = none) ∧
    (∀ (env : RenderEnv) (v : ClipPayload),
      renderOne env (cacheInsert [] (cacheKey reqGood) v) reqGood2 = render env reqGood2) :=
  cacheKey_settings_sensitive reqGood reqGood2 rfl rfl rfl (by decide)

theorem table_entry_value (env : RenderEnv) (cache : ClipCache) (order : List Nat)
    (requests : List ClipRequest) (p : Nat × ClipResult)
    (hp : p ∈ batchHits cache requests ++ completedInOrder env cache order requests) :
    ∃ r, requests[p.1]? = some r ∧ p.2 = renderOne env cache r := by
  rcases List.mem_append.mp hp with h | h
  · unfold batchHits at h
    obtain ⟨q, hq, hmap⟩ := List.mem_filterMap.mp h
    obtain ⟨v, hv, hpv⟩ := Option.map_eq_some'.mp hmap
    have hq2 : requests[q.1]? = some q.2 := List.mem_enum_iff_getElem?.mp hq
    refine ⟨q.2, ?_, ?_⟩
    · rw [← hpv]
      exact hq2
    · rw [← hpv]
      unfold renderOne
      rw [hv]
  · unfold completedInOrder at h
    obtain ⟨k, _, hget⟩ := List.mem_filterMap.mp h
    have hmem : p ∈ missResults env cache requests := List.getElem?_mem hget
    unfold missResults at hmem
    obtain ⟨q, hq, hpq⟩ := List.mem_map.mp hmem
    unfold batchMisses at hq
    obtain ⟨hqenum, hnone⟩ := List.mem_filter.mp hq
    have hq2 : requests[q.1]? = some q.2 := List.mem_enum_iff_getElem?.mp hqenum
    refine ⟨q.2, ?_, ?_⟩
    · rw [← hpq]
      exact hq2
    · rw [← hpq]
      unfold renderOne
      rw [Option.isNone_iff_eq_none.mp hnone]

theorem table_covers (env : RenderEnv) (cache : ClipCache) (order : List Nat)
    (requests : List ClipRequest)
    (hperm : order.Perm (List.range (batchMisses cache requests).length))
    (i : Nat) (r : ClipRequest) (hi : requests[i]? = some r) :
    ∃ p ∈ batchHits cache requests ++ completedInOrder env cache order requests,
      p.1 = i := by
  have henum : (i, r) ∈ requests.enum := List.mem_enum_iff_getElem?.mpr hi
  cases hl : cacheLookup cache (cacheKey r) with
  | some v =>
    refine ⟨(i, ClipResult.ok r.clip_id v), List.mem_append.mpr (Or.inl ?_), rfl⟩
    unfold batchHits
    refine List.mem_filterMap.mpr ⟨(i, r), henum, ?_⟩
    rw [hl]
    rfl
  | none =>
    have hmiss : (i, r) ∈ batchMisses cache requests := by
      unfold batchMisses
      refine List.mem_filter.mpr ⟨henum, ?_⟩
      rw [hl]
      rfl
    have hmr : (i, render env r) ∈ missResults env cache requests := by
      unfold missResults
      exact List.mem_map.mpr ⟨(i, r), hmiss, rfl⟩
    obtain ⟨k, hk, hkeq⟩ := List.mem_iff_getElem.mp hmr
    have hklen : k < (batchMisses cache requests).length := by
      have hlen := hk
      unfold missResults at hlen
      simpa using hlen
    have hkOrd : k ∈ order := hperm.mem_iff.mpr (List.mem_range.mpr hklen)
    refine ⟨(i, render env r), List.mem_append.mpr (Or.inr ?_), rfl⟩
    unfold completedInOrder
    refine List.mem_filterMap.mpr ⟨k, hkOrd, ?_⟩
    rw [List.getElem?_eq_getElem hk, hkeq]

theorem render_batch_eq_map (env : RenderEnv) (cache : ClipCache) (order : List Nat)
    (requests : List ClipRequest)
    (hperm : order.Perm (List.range (batchMisses cache requests).length)) :
    render_batch env cache order requests = requests.map (renderOne env cache) := by
  unfold render_batch
  apply List.ext_getElem?
  intro i
  by_cases hi : i < requests.length
  · obtain ⟨r, hr⟩ : ∃ r, requests[i]? = some r := by
      rw [List.getElem?_eq_getElem hi]
      exact ⟨requests[i], rfl⟩
    have hlookup := lookupNat_eq_of_fn
      (batchHits cache requests ++ completedInOrder env cache order requests)
      (fun j => match requests[j]? with
        | some q => renderOne env cache q
        | none => ClipResult.err "" "missing result") i
      (by
        intro p hp
        obtain ⟨q, hq, hpq⟩ := table_entry_value env cache order requests p hp
        simp only [hq]
        exact hpq)
      (table_covers env cache order requests hperm i r hr)
    simp only [hr] at hlookup
    rw [List.getElem?_map, List.getElem?_map, List.getElem?_range hi, hr,
      Option.map_some', Option.map_some', hlookup]
    rfl
  · have hle : requests.length ≤ i := Nat.le_of_not_lt hi
    rw [List.getElem?_eq_none (by simpa using hle),
      List.getElem?_eq_none (by simpa using hle)]

/-- Claim C1: render_batch returns one result per request, and the i-th
result carries the i-th request's clip identifier, for every completion
order of the worker pool (any permutation of the miss positions). -/
theorem renderBatch_order_preserved (env : RenderEnv) (cache : ClipCache)
    (order : List Nat) (requests : List ClipRequest)
    (hperm : order.Perm (List.range (batchMisses cache requests).length)) :
    (render_batch env cache order requests).length = requests.length ∧
    ∀ i : Nat,
      ((render_batch env cache order requests)[i]?).map ClipResult.clip_identifier
        = (requests[i]?).map ClipRequest.clip_id := by
  have hmap := render_batch_eq_map env cache order requests hperm
  rw [hmap]
  refine ⟨List.length_map _ _, ?_⟩
  intro i
  rw [List.getElem?_map]
  cases hr : requests[i]? with
  | some r => simp [clip_identifier_renderOne]
  | none => simp

/-- Witness for C1: a two-request batch whose workers complete in reverse
order still returns results aligned with the requests. -/
theorem renderBatch_order_preserved_witness :
    (render_batch envW [] [1, 0] [reqGood, reqMissing]).length
      = ([reqGood, reqMissing] : List ClipRequest).length ∧
    ∀ i : Nat,
      ((render_batch envW [] [1, 0] [reqGood, reqMissing])[i]?).map
          ClipResult.clip_identifier
        = (([reqGood, reqMissing] : List ClipRequest)[i]?).map ClipRequest.clip_id :=
  renderBatch_order_preserved envW [] [1, 0] [reqGood, reqMissing] (by decide)

/-- Claim C5: when one request of a batch fails to render (for any reason,
e.g. a nonexistent file), render_batch places that error entry, with its
message, at that request's index, keeps the output length equal to the
input length, and still returns each other request its own
success-or-error result — one clip's failure never fails the batch. -/
theorem renderBatch_isolates_failures (env : RenderEnv) (cache : ClipCache)
    (order : List Nat) (requests : List ClipRequest)
    (hperm : order.Perm (List.range (batchMisses cache requests).length))
    (j : Nat) (rj : ClipRequest) (hj : requests[j]? = some rj)
    (hmiss : cacheLookup cache (cacheKey rj) = none)
    (eid msg : String) (hfail : render env rj = ClipResult.err eid msg) :
    (render_batch env cache order requests)[j]? = some (ClipResult.err eid msg) ∧
    (render_batch env cache order requests).length = requests.length ∧
    ∀ i ri, i ≠ j → requests[i]? = some ri →
      (render_batch env cache order requests)[i]? = some (renderOne env cache ri) := by
  have hmap := render_batch_eq_map env cache order requests hperm
  rw [hmap]
  refine ⟨?_, List.length_map _ _, ?_⟩
  · rw [List.getElem?_map, hj, Option.map_some']
    unfold renderOne
    rw [hmiss, hfail]
  · intro i ri hne hri
    rw [List.getElem?_map, hri, Option.map_some']

/-- Witness for C5: a batch with a nonexistent-file request at index 0 and
a valid request at index 1, completing in reverse order. -/
theorem renderBatch_isolates_failures_witness :
    (render_batch envW [] [1, 0] [reqMissing, reqGood])[0]?
      = some (ClipResult.err "b" "FileNotFoundError: missing.wav") ∧
    (render_batch envW [] [1, 0] [reqMissing, reqGood]).length
      = ([reqMissing, reqGood] : List ClipRequest).length ∧
    ∀ i ri, i ≠ 0 → (([reqMissing, reqGood] : List ClipRequest))[i]? = some ri →
      (render_batch envW [] [1, 0] [reqMissing, reqGood])[i]?
        = some (renderOne envW [] ri) :=
  renderBatch_isolates_failures envW [] [1, 0] [reqMissing, reqGood] (by decide)
    0 reqMissing rfl rfl "b" "FileNotFoundError: missing.wav" (by decide)

/-- Claim C9: in the review page's clip mapping, a row whose end_time is
absent or falsy gets end time start_time + 3 (hence end > start for
non-negative starts), while an explicitly present (truthy) end_time is
passed through without validation. -/
theorem clipsToLoad_endTime_default (rootAudioPath : String) (clip : AnnotationRow) :
    (jsNumFalsy clip.end_time = true →
      (clipsToLoadEntry rootAudioPath clip).end_time = clip.start_time + 3 ∧
      (0 ≤ clip.start_time →
        clip.start_time < (clipsToLoadEntry rootAudioPath clip).end_time)) ∧
    (∀ e : ℚ, clip.end_time = some e → e ≠ 0 →
      (clipsToLoadEntry rootAudioPath clip).end_time = e) := by
  constructor
  · intro hfal
    have h1 : (clipsToLoadEntry rootAudioPath clip).end_time = clip.start_time + 3 := by
      unfold clipsToLoadEntry
      simp [hfal]
    refine ⟨h1, ?_⟩
    intro _
    rw [h1]
    linarith
  · intro e he hne
    have hfal : jsNumFalsy clip.end_time = false := by
      rw [he]
      unfold jsNumFalsy
      simp [hne]
    unfold clipsToLoadEntry
    simp only [hfal, Bool.false_eq_true, if_false]
    rw [he]
    rfl

/-- Witness for C9: a row without an end time gets start + 3; a row with
end time 5 keeps it. -/
theorem clipsToLoad_endTime_default_witness :
    (clipsToLoadEntry "" rowNoEnd).end_time = rowNoEnd.start_time + 3 ∧
    rowNoEnd.start_time < (clipsToLoadEntry "" rowNoEnd).end_time ∧
    (clipsToLoadEntry "" rowWithEnd).end_time = 5 :=
  ⟨((clipsToLoad_endTime_default "" rowNoEnd).1 rfl).1,
   ((clipsToLoad_endTime_default "" rowNoEnd).1 rfl).2 (by decide),
   (clipsToLoad_endTime_default "" rowWithEnd).2 5 rfl (by decide)⟩

/-- Claim C10: when the Electron API is unavailable, or the backend batch
call returns a non-success envelope so the loader reaches its top-level
catch, loadClipsBatch returns an empty array — not one error entry per
input — so on this failure path the output length differs from the input
length for any non-empty input. -/
theorem loadClipsBatch_failure_empty (env : LoaderEnv) (arr : List ClipData)
    (h : env.electronAPIAvailable = false ∨
      ∃ s rs e, env.batchCall = BatchCallOutcome.returns s rs e ∧ s ≠ "success") :
    loadClipsBatch env arr = [] ∧
    (arr ≠ [] → (loadClipsBatch env arr).length ≠ arr.length) := by
  have hempty : loadClipsBatch env arr = [] := by
    unfold loadClipsBatch
    rcases h with ha | ⟨s, rs, e, hb, hs⟩
    · rw [ha]
      simp
    · by_cases ha : env.electronAPIAvailable = false
      · rw [ha]
        simp
      · rw [if_neg ha]
        simp only [hb, hs, if_false]
  refine ⟨hempty, ?_⟩
  intro hne
  rw [hempty]
  intro hlen
  exact hne (List.eq_nil_of_length_eq_zero hlen.symm)

/-- Witness for C10: a non-success batch envelope yields an empty output
for a one-element input. -/
theorem loadClipsBatch_failure_empty_witness :
    loadClipsBatch envLoaderFail arrW = [] ∧
    (arrW ≠ [] → (loadClipsBatch envLoaderFail arrW).length ≠ arrW.length) :=
  loadClipsBatch_failure_empty envLoaderFail arrW
    (Or.inr ⟨"error", [], some "Batch processing failed", rfl, by decide⟩)

end Dipper
